import Mathlib

/-!
Shallow embedding of `src/SAC/sac_agent.py` (Soft Actor-Critic agent).

Real numbers are modelled by `ℚ`.  The neural networks (`Actor`, `CriticQ`,
`CriticV` from `SAC.actor_critic`), the `exp` function, the Adam optimizer
steps and the sampling RNG are opaque numeric computations; they are
abstracted as function fields of a `Model` record.  Autograd graph
membership is tracked explicitly: every tensor carries the set of trainable
parameter groups it depends on (`Deps`), `detach` resets that set, and each
optimizer step rewrites exactly the parameter group it owns — this mirrors
which parameters a `loss.backward(); opt.step()` pair can touch.
-/

namespace SACSpec

/-- A vector of scalars (a 1-D tensor / flattened parameter vector). -/
abbrev Vec := List ℚ

/-- Mean of a list of rationals, as computed by `torch.mean` over a
nonempty tensor (division by zero yields zero for the empty case). -/
def listMean (l : List ℚ) : ℚ := l.sum / l.length

/-- The trainable parameter groups of the agent, as a dependency set:
which groups a tensor's autograd graph reaches.  `dVfTarget` is the
target-V network, which has no optimizer but is still a parameter set. -/
structure Deps where
  dLogAlpha : Bool
  dActor : Bool
  dQf1 : Bool
  dQf2 : Bool
  dVf : Bool
  dVfTarget : Bool
deriving DecidableEq

/-- The empty dependency set: a leaf tensor or a detached tensor. -/
def Deps.nil : Deps := ⟨false, false, false, false, false, false⟩

/-- Union of two dependency sets (graph of a binary tensor operation). -/
def Deps.union (a b : Deps) : Deps :=
  ⟨a.dLogAlpha || b.dLogAlpha, a.dActor || b.dActor, a.dQf1 || b.dQf1,
   a.dQf2 || b.dQf2, a.dVf || b.dVf, a.dVfTarget || b.dVfTarget⟩

/-- Dependency set of a tensor reaching only `log_alpha`. -/
def Deps.onlyLogAlpha : Deps := ⟨true, false, false, false, false, false⟩

/-- Dependency set of a tensor reaching only the actor parameters. -/
def Deps.onlyActor : Deps := ⟨false, true, false, false, false, false⟩

/-- Dependency set of a tensor reaching only the first Q-critic. -/
def Deps.onlyQf1 : Deps := ⟨false, false, true, false, false, false⟩

/-- Dependency set of a tensor reaching only the second Q-critic. -/
def Deps.onlyQf2 : Deps := ⟨false, false, false, true, false, false⟩

/-- Dependency set of a tensor reaching only the V-critic. -/
def Deps.onlyVf : Deps := ⟨false, false, false, false, true, false⟩

/-- Dependency set of a tensor reaching only the target-V parameters. -/
def Deps.onlyVfTarget : Deps := ⟨false, false, false, false, false, true⟩

/-- A batched tensor holding one scalar per batch row, together with the
parameter groups its autograd graph reaches. -/
structure TB where
  val : List ℚ
  deps : Deps
deriving DecidableEq

/-- A scalar (0-dimensional) tensor with its dependency set. -/
structure TS where
  val : ℚ
  deps : Deps
deriving DecidableEq

/-- `Tensor.detach()`: same values, cut from the autograd graph. -/
def TB.detach (x : TB) : TB := ⟨x.val, Deps.nil⟩

/-- Elementwise tensor addition. -/
def TB.add (x y : TB) : TB :=
  ⟨List.zipWith (fun a b => a + b) x.val y.val, x.deps.union y.deps⟩

/-- Elementwise tensor subtraction. -/
def TB.sub (x y : TB) : TB :=
  ⟨List.zipWith (fun a b => a - b) x.val y.val, x.deps.union y.deps⟩

/-- Elementwise tensor multiplication. -/
def TB.mulTB (x y : TB) : TB :=
  ⟨List.zipWith (fun a b => a * b) x.val y.val, x.deps.union y.deps⟩

/-- `torch.min(x, y)`: elementwise minimum. -/
def TB.minTB (x y : TB) : TB :=
  ⟨List.zipWith (fun a b => min a b) x.val y.val, x.deps.union y.deps⟩

/-- Multiplication of a tensor by a graph-free scalar constant. -/
def TB.constMul (c : ℚ) (x : TB) : TB := ⟨x.val.map (fun v => c * v), x.deps⟩

/-- Subtraction of a tensor from a graph-free scalar constant
(broadcast, as in `1 - done`). -/
def TB.constSub (c : ℚ) (x : TB) : TB := ⟨x.val.map (fun v => c - v), x.deps⟩

/-- Addition of a graph-free scalar constant to a tensor (broadcast). -/
def TB.addConst (x : TB) (c : ℚ) : TB := ⟨x.val.map (fun v => v + c), x.deps⟩

/-- `Tensor.mean()` over the batch dimension. -/
def TB.mean (x : TB) : TS := ⟨listMean x.val, x.deps⟩

/-- Negation of a scalar tensor. -/
def TS.neg (x : TS) : TS := ⟨-x.val, x.deps⟩

/-- Broadcast multiplication of a batched tensor by a scalar tensor. -/
def TS.smulTB (c : TS) (x : TB) : TB :=
  ⟨x.val.map (fun v => c.val * v), c.deps.union x.deps⟩

/-- `F.mse_loss(a, b)` with the default mean reduction. -/
def mseLoss (a b : TB) : TS :=
  ⟨listMean (List.zipWith (fun u v => (u - v) ^ 2) a.val b.val),
   a.deps.union b.deps⟩

/-- One stored experience tuple, per the data model of the spec:
(state, action, reward, next state, done flag). -/
structure Transition where
  obs : Vec
  act : Vec
  rew : ℚ
  nextObs : Vec
  fin : Bool
deriving DecidableEq

/-- The all-zero transition filling the pre-allocated buffer slots. -/
def defaultTransition : Transition := ⟨[], [], 0, [], false⟩

/-- Modelled from the spec: `SAC.buffer.ReplayBuffer` is imported by
`sac_agent.py` but its source file is not in the repository.  Per the
spec, it is a fixed-capacity circular store with pre-allocated slots, a
write cursor that wraps modulo the capacity, and a size counter that
saturates at the capacity. -/
structure ReplayBuffer where
  capacity : ℕ
  batchSize : ℕ
  data : List Transition
  ptr : ℕ
  size : ℕ
deriving DecidableEq

/-- Modelled from the spec: `ReplayBuffer.store` writes the transition at
the cursor position, advances the cursor circularly, and increments the
size up to the capacity; it always succeeds (overwrite on overflow). -/
def ReplayBuffer.store (b : ReplayBuffer) (t : Transition) : ReplayBuffer :=
  { b with data := b.data.set b.ptr t,
           ptr := (b.ptr + 1) % b.capacity,
           size := min (b.size + 1) b.capacity }

/-- A freshly allocated buffer: `ReplayBuffer(state_dim, action_dim,
BUFFER_SIZE, BATCH_SIZE)` with empty pre-allocated slots. -/
def mkReplayBuffer (capacity batchSize : ℕ) : ReplayBuffer :=
  ⟨capacity, batchSize, List.replicate capacity defaultTransition, 0, 0⟩

/-- One row of a sampled minibatch, after the numpy arrays returned by
`sample_batch` are turned into tensors: the done flag is a float. -/
structure Row where
  obs : Vec
  nextObs : Vec
  act : Vec
  rew : ℚ
  dn : ℚ
deriving DecidableEq

/-- Conversion of a stored transition into a sampled batch row
(the boolean done flag was stored into a float array). -/
def rowOfTransition (t : Transition) : Row :=
  ⟨t.obs, t.nextObs, t.act, t.rew, if t.fin then 1 else 0⟩

/-- Modelled from the spec: the opaque numeric collaborators of
`sac_agent.py` whose sources are not in the repository — the `Actor`,
`CriticQ` and `CriticV` networks of `SAC.actor_critic` (black-box
differentiable functions of their flattened parameter vectors), `exp`,
the per-group Adam optimizer steps, and the uniform index sampler of
`ReplayBuffer.sample_batch`. -/
structure Model where
  exp : ℚ → ℚ
  actorEval : Vec → Vec → Vec × ℚ
  qEval : Vec → Vec → Vec → ℚ
  vEval : Vec → Vec → ℚ
  alphaOpt : ℚ → ℚ
  actorOpt : Vec → Vec
  qf1Opt : Vec → Vec
  qf2Opt : Vec → Vec
  vfOpt : Vec → Vec
  sampleIdx : ℕ → ℕ → List ℕ

/-- The module-level hyperparameter constants of `sac_agent.py`, made an
explicit configuration record as the spec's design notes direct. -/
structure Config where
  gamma : ℚ
  tau : ℚ
  initialRandomSteps : ℕ
  policyUpdateFreq : ℕ
  bufferSize : ℕ
  batchSize : ℕ
deriving DecidableEq

/-- The constants at the top of `sac_agent.py`: `GAMMMA`, `TAU`,
`INITIAL_RANDOM_STEPS`, `POLICY_UPDATE_FREQUENCE`, `BUFFER_SIZE`,
`BATCH_SIZE`. -/
def defaultConfig : Config :=
  ⟨0.995, 5e-3, 100, 1, 1000000, 256⟩

/-- The mutable state of a `SAC` agent instance: the scalar `log_alpha`,
the five network parameter vectors, the replay buffer, the scratch
`transition` attribute, the step counter and the test flag. -/
structure Agent where
  statedim : ℕ
  actiondim : ℕ
  targetAlpha : ℚ
  logAlpha : ℚ
  actorP : Vec
  vfP : Vec
  vfTargetP : Vec
  qf1P : Vec
  qf2P : Vec
  memory : ReplayBuffer
  transition : Option Transition
  totalStep : ℕ
  isTest : Bool
deriving DecidableEq

/-- `self.target_alpha = -np.prod((self.actiondim,)).item()`: the negated
product of the one-element shape tuple. -/
def targetAlphaInit (actionDim : ℕ) : ℤ := -(([(actionDim : ℤ)]).prod)

/-- `SAC.__init__(action_dim, state_dim)`: allocates the buffer, sets
`target_alpha`, zero-initializes `log_alpha`, copies the fresh V
parameters into the target-V network (`load_state_dict`), and starts the
step counter at zero in training mode.  The randomly initialized network
parameter vectors are inputs, since initialization is delegated to the
(absent) network classes. -/
def mkAgent (cfg : Config) (actionDim stateDim : ℕ)
    (actorP0 vfP0 qf1P0 qf2P0 : Vec) : Agent :=
  { statedim := stateDim
    actiondim := actionDim
    targetAlpha := ((targetAlphaInit actionDim : ℤ) : ℚ)
    logAlpha := 0
    actorP := actorP0
    vfP := vfP0
    vfTargetP := vfP0
    qf1P := qf1P0
    qf2P := qf2P0
    memory := mkReplayBuffer cfg.bufferSize cfg.batchSize
    transition := none
    totalStep := 0
    isTest := false }

/-- `np.clip(·, -1, 1)` on one scalar. -/
def clip1 (x : ℚ) : ℚ := min 1 (max (-1) x)

/-- `SAC.step(state)`: evaluates the actor, wraps the action into a
one-element list, turns it into an array, clips it elementwise to
`[-1, 1]`, increments the step counter, and returns `tolist()` of the
`1 × action_dim` array — a list holding one inner vector. -/
def step (M : Model) (s : Agent) (state : Vec) : List Vec × Agent :=
  (([(M.actorEval s.actorP state).1]).map (fun v => v.map clip1),
   { s with totalStep := s.totalStep + 1 })

/-- `SAC.store_transition(state, new_state, reward, action, done)`:
outside test mode, records the transition tuple in `self.transition` and
pushes it into the replay buffer (note the reordering into the buffer's
`(state, action, reward, next_state, done)` field order). -/
def store_transition (s : Agent) (state newState : Vec) (reward : ℚ)
    (action : Vec) (fin : Bool) : Agent :=
  if s.isTest then s
  else
    let t : Transition := ⟨state, action, reward, newState, fin⟩
    { s with transition := some t, memory := s.memory.store t }

/-- `SAC.normalizeState(s_t)` returns its argument unchanged (Python is
untyped, so the embedding is the polymorphic identity). -/
def normalizeState (s_t : α) : α := s_t

/-- `SAC._target_soft_update()`: for every zipped pair of target and
online V parameters, `target.copy_(TAU * online + (1 - TAU) * target)`. -/
def softUpdate (tau : ℚ) (target online : Vec) : Vec :=
  List.zipWith (fun t l => tau * l + (1 - tau) * t) target online

/-- `reward = torch.FloatTensor(samples["rews"])`: a leaf tensor. -/
def rewardT (batch : List Row) : TB := ⟨batch.map Row.rew, Deps.nil⟩

/-- `done = torch.FloatTensor(samples["done"])`: a leaf tensor. -/
def doneT (batch : List Row) : TB := ⟨batch.map Row.dn, Deps.nil⟩

/-- `mask = 1 - done`. -/
def maskT (batch : List Row) : TB := TB.constSub 1 (doneT batch)

/-- The `log_prob` component of `self.actor(state)`: its graph reaches
the actor parameters. -/
def logProbT (M : Model) (s : Agent) (batch : List Row) : TB :=
  ⟨(batch.map Row.obs).map (fun st => (M.actorEval s.actorP st).2),
   Deps.onlyActor⟩

/-- The `new_action` component of `self.actor(state)`, one action vector
per batch row (its graph also reaches the actor parameters, recorded at
the point of consumption in `qPredT`). -/
def newActionCol (M : Model) (s : Agent) (batch : List Row) : List Vec :=
  (batch.map Row.obs).map (fun st => (M.actorEval s.actorP st).1)

/-- `alpha_loss = (-self.log_alpha.exp() * (log_prob + self.target_alpha).detach()).mean()`. -/
def alphaLossT (M : Model) (s : Agent) (batch : List Row) : TS :=
  TB.mean (TS.smulTB (TS.neg ⟨M.exp s.logAlpha, Deps.onlyLogAlpha⟩)
    (TB.detach (TB.addConst (logProbT M s batch) s.targetAlpha)))

/-- `self.alpha_optimizer.step()`: the alpha optimizer was constructed as
`optim.Adam([self.log_alpha])`, so the step rewrites the `log_alpha`
scalar in place and owns no other parameter. -/
def alphaStepAgent (M : Model) (s : Agent) : Agent :=
  { s with logAlpha := M.alphaOpt s.logAlpha }

/-- `alpha = self.log_alpha.exp()`, read after the optimizer step. -/
def alphaT (M : Model) (s : Agent) : TS :=
  ⟨M.exp s.logAlpha, Deps.onlyLogAlpha⟩

/-- `q1_pred = self.qf1(state, action)`: the first Q-critic on the stored
state and stored action columns of the batch. -/
def q1PredT (M : Model) (s : Agent) (batch : List Row) : TB :=
  ⟨List.zipWith (M.qEval s.qf1P) (batch.map Row.obs) (batch.map Row.act),
   Deps.onlyQf1⟩

/-- `q2_pred = self.qf2(state, action)`. -/
def q2PredT (M : Model) (s : Agent) (batch : List Row) : TB :=
  ⟨List.zipWith (M.qEval s.qf2P) (batch.map Row.obs) (batch.map Row.act),
   Deps.onlyQf2⟩

/-- `vf_target = self.vf_target(next_state)`. -/
def vfTargetNextT (M : Model) (s : Agent) (batch : List Row) : TB :=
  ⟨(batch.map Row.nextObs).map (M.vEval s.vfTargetP), Deps.onlyVfTarget⟩

/-- `q_target = reward + GAMMMA * vf_target * mask`. -/
def qTargetT (M : Model) (cfg : Config) (s : Agent) (batch : List Row) : TB :=
  TB.add (rewardT batch)
    (TB.mulTB (TB.constMul cfg.gamma (vfTargetNextT M s batch)) (maskT batch))

/-- `qf1_loss = F.mse_loss(q_target.detach(), q1_pred)`. -/
def qf1LossT (M : Model) (cfg : Config) (s : Agent) (batch : List Row) : TS :=
  mseLoss (TB.detach (qTargetT M cfg s batch)) (q1PredT M s batch)

/-- `qf2_loss = F.mse_loss(q_target.detach(), q2_pred)`. -/
def qf2LossT (M : Model) (cfg : Config) (s : Agent) (batch : List Row) : TS :=
  mseLoss (TB.detach (qTargetT M cfg s batch)) (q2PredT M s batch)

/-- `v_pred = self.vf(state)`. -/
def vPredT (M : Model) (s : Agent) (batch : List Row) : TB :=
  ⟨(batch.map Row.obs).map (M.vEval s.vfP), Deps.onlyVf⟩

/-- `q_pred = torch.min(self.qf1(state, new_action), self.qf2(state, new_action))`:
both operands reach the actor parameters through `new_action` as well as
their own critic parameters. -/
def qPredT (M : Model) (s : Agent) (batch : List Row) : TB :=
  TB.minTB
    ⟨List.zipWith (M.qEval s.qf1P) (batch.map Row.obs) (newActionCol M s batch),
     Deps.union Deps.onlyQf1 Deps.onlyActor⟩
    ⟨List.zipWith (M.qEval s.qf2P) (batch.map Row.obs) (newActionCol M s batch),
     Deps.union Deps.onlyQf2 Deps.onlyActor⟩

/-- `v_target = q_pred - alpha * log_prob`. -/
def vTargetT (M : Model) (s : Agent) (batch : List Row) : TB :=
  TB.sub (qPredT M s batch) (TS.smulTB (alphaT M s) (logProbT M s batch))

/-- `v_loss = F.mse_loss(v_pred, v_target.detach())`. -/
def vLossT (M : Model) (s : Agent) (batch : List Row) : TS :=
  mseLoss (vPredT M s batch) (TB.detach (vTargetT M s batch))

/-- `advantage = q_pred - v_pred.detach()`. -/
def advantageT (M : Model) (s : Agent) (batch : List Row) : TB :=
  TB.sub (qPredT M s batch) (TB.detach (vPredT M s batch))

/-- `actor_loss = (alpha * log_prob - advantage).mean()`. -/
def actorLossT (M : Model) (s : Agent) (batch : List Row) : TS :=
  TB.mean (TB.sub (TS.smulTB (alphaT M s) (logProbT M s batch))
    (advantageT M s batch))

/-- The four scalar loss values returned by `update_model`
(`actor_loss, qf_loss, v_loss, alpha_loss`). -/
structure Losses where
  actorLoss : ℚ
  qfLoss : ℚ
  vLoss : ℚ
  alphaLoss : ℚ
deriving DecidableEq

/-- The body of `SAC.update_model` acting on an already-sampled batch,
line for line: the alpha loss is computed from the pre-step `log_alpha`,
the alpha optimizer step rewrites `log_alpha` in place, `alpha` is reread
from the updated scalar, the Q and V losses are formed, the actor step
and the target soft update run only when `total_step` is divisible by
`POLICY_UPDATE_FREQUENCE` (otherwise `actor_loss = torch.zeros(1)`), and
the two Q optimizers and the V optimizer step unconditionally. -/
def updateModelB (M : Model) (cfg : Config) (s0 : Agent) (batch : List Row) :
    Losses × Agent :=
  let aLoss := alphaLossT M s0 batch
  let s := alphaStepAgent M s0
  let q1L := qf1LossT M cfg s batch
  let q2L := qf2LossT M cfg s batch
  let vL := vLossT M s batch
  let doPolicy := s.totalStep % cfg.policyUpdateFreq = 0
  let actorLossV := if doPolicy then (actorLossT M s batch).val else 0
  let actorP1 := if doPolicy then M.actorOpt s.actorP else s.actorP
  let vfTargetP1 :=
    if doPolicy then softUpdate cfg.tau s.vfTargetP s.vfP else s.vfTargetP
  ({ actorLoss := actorLossV, qfLoss := q1L.val + q2L.val,
     vLoss := vL.val, alphaLoss := aLoss.val },
   { s with actorP := actorP1, qf1P := M.qf1Opt s.qf1P,
            qf2P := M.qf2Opt s.qf2P, vfP := M.vfOpt s.vfP,
            vfTargetP := vfTargetP1 })

/-- Modelled from the spec: `ReplayBuffer.sample_batch` draws uniform
indices into the valid region `[0, size)` (abstracted as the sampler
`M.sampleIdx size batch_size`) and gathers the stored fields. -/
def sampleBatch (M : Model) (b : ReplayBuffer) : List Row :=
  (M.sampleIdx b.size b.batchSize).map
    (fun i => rowOfTransition (b.data.getD i defaultTransition))

/-- `SAC.update_model()`: samples a minibatch from the replay buffer and
runs the update body on it. -/
def update_model (M : Model) (cfg : Config) (s : Agent) : Losses × Agent :=
  updateModelB M cfg s (sampleBatch M s.memory)

/-- `SAC.train()`: runs `update_model` exactly when the buffer holds
strictly more than `BATCH_SIZE` transitions and the step counter strictly
exceeds `INITIAL_RANDOM_STEPS`. -/
def train (M : Model) (cfg : Config) (s : Agent) : Agent :=
  if cfg.batchSize < s.memory.size ∧ cfg.initialRandomSteps < s.totalStep
  then (update_model M cfg s).2
  else s

/-- The four named artifacts written into the results directory:
`actor.pt`, `qf1.pt`, `qf2.pt`, `vf.pt`. -/
structure SavedModels where
  actorFile : Vec
  qf1File : Vec
  qf2File : Vec
  vfFile : Vec
deriving DecidableEq

/-- `SAC.save_models()`: persists the state dicts of the actor, both
Q-critics and the V-critic under their four file names. -/
def save_models (s : Agent) : SavedModels :=
  ⟨s.actorP, s.qf1P, s.qf2P, s.vfP⟩

/-- `SAC.load_models()`: loads each of the four artifacts back into the
network of the same name (`load_state_dict`); `log_alpha` and the
target-V parameters are not persisted and keep their current values. -/
def load_models (s : Agent) (files : SavedModels) : Agent :=
  { s with actorP := files.actorFile, qf1P := files.qf1File,
           qf2P := files.qf2File, vfP := files.vfFile }

/-- A concrete instantiation of the opaque numeric collaborators, used to
evaluate the embedding at specific inputs. -/
def cModel : Model where
  exp := fun x => 1 + x
  actorEval := fun p st => ([st.sum + p.sum, 3], 1/2)
  qEval := fun p st a => p.sum + st.sum + a.sum
  vEval := fun p st => p.sum - st.sum
  alphaOpt := fun x => x - 1
  actorOpt := fun p => p.map (fun v => v + 1)
  qf1Opt := fun p => p
  qf2Opt := fun p => p
  vfOpt := fun p => p
  sampleIdx := fun _ n => List.replicate n 0

/-- A concrete agent in training mode with a tiny buffer. -/
def cAgent : Agent where
  statedim := 1
  actiondim := 2
  targetAlpha := -2
  logAlpha := 0
  actorP := [1]
  vfP := [2]
  vfTargetP := [2]
  qf1P := [3]
  qf2P := [4]
  memory := mkReplayBuffer 2 1
  transition := none
  totalStep := 0
  isTest := false

/-- The same concrete agent switched into test mode. -/
def cTestAgent : Agent := { cAgent with isTest := true }

/-- Zipping two maps over the same list fuses into one map. -/
theorem zipWith_map_same {α β γ δ : Type} (f : β → γ → δ) (g : α → β)
    (h : α → γ) :
    ∀ l : List α,
      List.zipWith f (l.map g) (l.map h) = l.map (fun x => f (g x) (h x))
  | [] => rfl
  | x :: xs => by
      simp only [List.map_cons, List.zipWith_cons_cons,
        zipWith_map_same f g h xs]

/-- Pointwise equal integrands give equal batch means. -/
theorem listMean_map_congr {α : Type} (f g : α → ℚ) (l : List α)
    (h : ∀ x, f x = g x) : listMean (l.map f) = listMean (l.map g) := by
  rw [funext h]

/-- Elementwise reading of one soft update. -/
theorem softUpdate_getD (tau : ℚ) :
    ∀ (target online : Vec) (i : ℕ), i < target.length → i < online.length →
      (softUpdate tau target online).getD i 0 =
        tau * online.getD i 0 + (1 - tau) * target.getD i 0
  | [], _, i, hi, _ => absurd hi (by simp)
  | _ :: _, [], i, _, hj => absurd hj (by simp)
  | t :: ts, o :: os, 0, _, _ => by simp [softUpdate]
  | t :: ts, o :: os, i + 1, hi, hj => by
      simpa [softUpdate] using
        softUpdate_getD tau ts os i (by simpa using hi) (by simpa using hj)

/-- With `tau = 1` the soft update copies the online parameters. -/
theorem softUpdate_one :
    ∀ target online : Vec, target.length = online.length →
      softUpdate 1 target online = online
  | [], [], _ => rfl
  | [], _ :: _, h => by simp at h
  | _ :: _, [], h => by simp at h
  | t :: ts, o :: os, h => by
      have ih := softUpdate_one ts os (by simpa using h)
      simp only [softUpdate] at ih ⊢
      simp only [List.zipWith_cons_cons, ih, List.cons.injEq, and_true]
      ring

/-- With `tau = 0` the soft update leaves the target unchanged. -/
theorem softUpdate_zero :
    ∀ target online : Vec, target.length = online.length →
      softUpdate 0 target online = target
  | [], [], _ => rfl
  | [], _ :: _, h => by simp at h
  | _ :: _, [], h => by simp at h
  | t :: ts, o :: os, h => by
      have ih := softUpdate_zero ts os (by simpa using h)
      simp only [softUpdate] at ih ⊢
      simp only [List.zipWith_cons_cons, ih, List.cons.injEq, and_true]
      ring

/-- C6: after one target soft update, every target-V parameter element
equals `tau * online + (1 - tau) * old_target`; with `tau = 1` the target
becomes exactly the online V parameters, and with `tau = 0` the target is
unchanged. -/
theorem c6_target_soft_update (tau : ℚ) (target online : Vec)
    (h : target.length = online.length) :
    (∀ i, i < target.length →
      (softUpdate tau target online).getD i 0 =
        tau * online.getD i 0 + (1 - tau) * target.getD i 0) ∧
    softUpdate 1 target online = online ∧
    softUpdate 0 target online = target := by
  refine ⟨fun i hi => softUpdate_getD tau target online i hi (h ▸ hi),
    softUpdate_one target online h, softUpdate_zero target online h⟩

/-- Witness for C6 at a concrete parameter pair. -/
theorem c6_target_soft_update_witness :
    ([4, 6] : Vec).length = ([8, 10] : Vec).length ∧
    (softUpdate (1/2) [4, 6] [8, 10]).getD 0 0 =
      (1/2) * 8 + (1 - 1/2) * 4 ∧
    softUpdate 1 [4, 6] [8, 10] = [8, 10] ∧
    softUpdate 0 [4, 6] [8, 10] = [4, 6] := by
  have h := c6_target_soft_update (1/2) [4, 6] [8, 10] (by decide)
  exact ⟨by decide, h.1 0 (by decide),
    (c6_target_soft_update 1 [4, 6] [8, 10] (by decide)).2.1,
    (c6_target_soft_update 0 [4, 6] [8, 10] (by decide)).2.2⟩

/-- C7: for every `action_dim ≥ 1` (and indeed for every `action_dim`),
the target entropy `target_alpha` computed at construction equals exactly
`-action_dim`. -/
theorem c7_target_entropy (cfg : Config) (A S : ℕ) (p1 p2 p3 p4 : Vec)
    (_h : 1 ≤ A) :
    (mkAgent cfg A S p1 p2 p3 p4).targetAlpha = -(A : ℚ) := by
  simp [mkAgent, targetAlphaInit]

/-- Witness for C7 at `action_dim = 3`. -/
theorem c7_target_entropy_witness :
    1 ≤ 3 ∧ (mkAgent defaultConfig 3 2 [] [] [] []).targetAlpha = -(3 : ℚ) :=
  ⟨by decide, c7_target_entropy defaultConfig 3 2 [] [] [] [] (by decide)⟩

/-- C9: loading the artifacts written by `save_models` into a freshly
constructed agent of the same state and action dimensions reproduces the
parameters of all four persisted networks: actor, qf1, qf2, vf. -/
theorem c9_save_load_roundtrip (cfg : Config) (a : Agent)
    (p1 p2 p3 p4 : Vec) :
    (load_models (mkAgent cfg a.actiondim a.statedim p1 p2 p3 p4)
        (save_models a)).actorP = a.actorP ∧
    (load_models (mkAgent cfg a.actiondim a.statedim p1 p2 p3 p4)
        (save_models a)).qf1P = a.qf1P ∧
    (load_models (mkAgent cfg a.actiondim a.statedim p1 p2 p3 p4)
        (save_models a)).qf2P = a.qf2P ∧
    (load_models (mkAgent cfg a.actiondim a.statedim p1 p2 p3 p4)
        (save_models a)).vfP = a.vfP :=
  ⟨rfl, rfl, rfl, rfl⟩

/-- C10: `normalizeState` is the identity: it returns its argument
unchanged for every input. -/
theorem c10_normalize_state_identity {α : Type} (x : α) :
    normalizeState x = x := rfl

/-- The stored `q_target` values, read off per batch row. -/
theorem qTargetT_val (M : Model) (cfg : Config) (s : Agent)
    (batch : List Row) :
    (qTargetT M cfg s batch).val =
      batch.map (fun r =>
        r.rew + cfg.gamma * M.vEval s.vfTargetP r.nextObs * (1 - r.dn)) := by
  simp only [qTargetT, TB.add, TB.mulTB, TB.constMul, TB.constSub, maskT,
    doneT, rewardT, vfTargetNextT, List.map_map, zipWith_map_same]
  rfl

/-- The value of `qf1_loss`, read off per batch row. -/
theorem qf1LossT_val (M : Model) (cfg : Config) (s : Agent)
    (batch : List Row) :
    (qf1LossT M cfg s batch).val = listMean (batch.map (fun r =>
      (M.qEval s.qf1P r.obs r.act -
        (r.rew + cfg.gamma * M.vEval s.vfTargetP r.nextObs * (1 - r.dn))) ^ 2)) := by
  have h1 := qTargetT_val M cfg s batch
  simp only [qf1LossT, mseLoss, TB.detach, q1PredT, h1, zipWith_map_same]
  exact listMean_map_congr _ _ batch (fun r => by ring)

/-- The value of `qf2_loss`, read off per batch row. -/
theorem qf2LossT_val (M : Model) (cfg : Config) (s : Agent)
    (batch : List Row) :
    (qf2LossT M cfg s batch).val = listMean (batch.map (fun r =>
      (M.qEval s.qf2P r.obs r.act -
        (r.rew + cfg.gamma * M.vEval s.vfTargetP r.nextObs * (1 - r.dn))) ^ 2)) := by
  have h1 := qTargetT_val M cfg s batch
  simp only [qf2LossT, mseLoss, TB.detach, q2PredT, h1, zipWith_map_same]
  exact listMean_map_congr _ _ batch (fun r => by ring)

/-- The `qf_loss` value returned by the update body is the sum of the two
Q-critic losses, which do not read `log_alpha`. -/
theorem updateModelB_qfLoss (M : Model) (cfg : Config) (s : Agent)
    (batch : List Row) :
    (updateModelB M cfg s batch).1.qfLoss =
      (qf1LossT M cfg s batch).val + (qf2LossT M cfg s batch).val := rfl

/-- C1: in `update_model` the Q-critic target is
`q_target = reward + gamma * TargetV(next_state) * (1 - done)`; the
critic losses use its gradient-detached copy (empty dependency set), and
both `qf1_loss` and `qf2_loss` are the mean-squared error between each
Q-critic's prediction on the stored (state, action) pair of the sampled
batch and this shared target; their backward graphs reach only the
respective critic, and their sum is the returned `qf_loss`. -/
theorem c1_q_target_and_critic_losses (M : Model) (cfg : Config) (s : Agent)
    (batch : List Row) :
    (TB.detach (qTargetT M cfg s batch)).deps = Deps.nil ∧
    (TB.detach (qTargetT M cfg s batch)).val =
      batch.map (fun r =>
        r.rew + cfg.gamma * M.vEval s.vfTargetP r.nextObs * (1 - r.dn)) ∧
    (qf1LossT M cfg s batch).val = listMean (batch.map (fun r =>
      (M.qEval s.qf1P r.obs r.act -
        (r.rew + cfg.gamma * M.vEval s.vfTargetP r.nextObs * (1 - r.dn))) ^ 2)) ∧
    (qf2LossT M cfg s batch).val = listMean (batch.map (fun r =>
      (M.qEval s.qf2P r.obs r.act -
        (r.rew + cfg.gamma * M.vEval s.vfTargetP r.nextObs * (1 - r.dn))) ^ 2)) ∧
    (qf1LossT M cfg s batch).deps = Deps.onlyQf1 ∧
    (qf2LossT M cfg s batch).deps = Deps.onlyQf2 ∧
    (updateModelB M cfg s batch).1.qfLoss =
      (qf1LossT M cfg s batch).val + (qf2LossT M cfg s batch).val :=
  ⟨rfl, qTargetT_val M cfg s batch, qf1LossT_val M cfg s batch,
   qf2LossT_val M cfg s batch, rfl, rfl, updateModelB_qfLoss M cfg s batch⟩

/-- The value of `alpha_loss`, read off per batch row. -/
theorem alphaLossT_val (M : Model) (s : Agent) (batch : List Row) :
    (alphaLossT M s batch).val = listMean (batch.map (fun r =>
      -(M.exp s.logAlpha) *
        ((M.actorEval s.actorP r.obs).2 + s.targetAlpha))) := by
  simp only [alphaLossT, TB.mean, TS.smulTB, TS.neg, TB.detach, TB.addConst,
    logProbT, List.map_map]
  rfl

/-- The value of `v_loss`, read off per batch row. -/
theorem vLossT_val (M : Model) (s : Agent) (batch : List Row) :
    (vLossT M s batch).val = listMean (batch.map (fun r =>
      (M.vEval s.vfP r.obs -
        (min (M.qEval s.qf1P r.obs (M.actorEval s.actorP r.obs).1)
             (M.qEval s.qf2P r.obs (M.actorEval s.actorP r.obs).1) -
         M.exp s.logAlpha * (M.actorEval s.actorP r.obs).2)) ^ 2)) := by
  simp only [vLossT, mseLoss, TB.detach, vTargetT, TB.sub, TS.smulTB, alphaT,
    logProbT, vPredT, qPredT, TB.minTB, newActionCol, List.map_map,
    zipWith_map_same]
  rfl

/-- The value of `actor_loss`, read off per batch row. -/
theorem actorLossT_val (M : Model) (s : Agent) (batch : List Row) :
    (actorLossT M s batch).val = listMean (batch.map (fun r =>
      M.exp s.logAlpha * (M.actorEval s.actorP r.obs).2 -
        (min (M.qEval s.qf1P r.obs (M.actorEval s.actorP r.obs).1)
             (M.qEval s.qf2P r.obs (M.actorEval s.actorP r.obs).1) -
         M.vEval s.vfP r.obs))) := by
  simp only [actorLossT, TB.mean, TB.sub, TS.smulTB, alphaT, logProbT,
    advantageT, TB.detach, vPredT, qPredT, TB.minTB, newActionCol,
    List.map_map, zipWith_map_same]
  rfl

/-- The `v_loss` value returned by the update body is computed from the
agent whose `log_alpha` the alpha optimizer has already rewritten. -/
theorem updateModelB_vLoss (M : Model) (cfg : Config) (s : Agent)
    (batch : List Row) :
    (updateModelB M cfg s batch).1.vLoss =
      (vLossT M (alphaStepAgent M s) batch).val := rfl

/-- The `alpha_loss` value returned by the update body is computed from
the pre-step `log_alpha`. -/
theorem updateModelB_alphaLoss (M : Model) (cfg : Config) (s : Agent)
    (batch : List Row) :
    (updateModelB M cfg s batch).1.alphaLoss =
      (alphaLossT M s batch).val := rfl

/-- The `actor_loss` value returned by the update body: the real loss on
policy-update steps, the zero placeholder otherwise. -/
theorem updateModelB_actorLoss (M : Model) (cfg : Config) (s : Agent)
    (batch : List Row) :
    (updateModelB M cfg s batch).1.actorLoss =
      (if s.totalStep % cfg.policyUpdateFreq = 0
       then (actorLossT M (alphaStepAgent M s) batch).val else 0) := rfl

/-- The actor parameters after the update body: stepped by the actor
optimizer exactly on policy-update steps. -/
theorem updateModelB_actorP (M : Model) (cfg : Config) (s : Agent)
    (batch : List Row) :
    (updateModelB M cfg s batch).2.actorP =
      (if s.totalStep % cfg.policyUpdateFreq = 0
       then M.actorOpt s.actorP else s.actorP) := rfl

/-- The target-V parameters after the update body: soft-updated exactly
on policy-update steps. -/
theorem updateModelB_vfTargetP (M : Model) (cfg : Config) (s : Agent)
    (batch : List Row) :
    (updateModelB M cfg s batch).2.vfTargetP =
      (if s.totalStep % cfg.policyUpdateFreq = 0
       then softUpdate cfg.tau s.vfTargetP s.vfP else s.vfTargetP) := rfl

/-- C2: in every `update_model` call the entropy-temperature loss equals
`mean(-exp(log_alpha) * stopgrad(log_prob + target_entropy))`, its
backward graph reaches only `log_alpha` (so the alpha optimizer step
touches only `log_alpha`, leaving every network parameter set and the
rest of the agent unchanged), `alpha = exp(log_alpha)` is recomputed from
the stepped `log_alpha` before it enters the V-target and the actor loss
of the same call, and the Q-critic target of the same call does not
depend on `log_alpha` at all. -/
theorem c2_entropy_temperature_update (M : Model) (cfg : Config) (s : Agent)
    (batch : List Row) :
    (alphaLossT M s batch).val = listMean (batch.map (fun r =>
      -(M.exp s.logAlpha) *
        ((M.actorEval s.actorP r.obs).2 + s.targetAlpha))) ∧
    (alphaLossT M s batch).deps = Deps.onlyLogAlpha ∧
    (alphaStepAgent M s).logAlpha = M.alphaOpt s.logAlpha ∧
    (alphaStepAgent M s).actorP = s.actorP ∧
    (alphaStepAgent M s).qf1P = s.qf1P ∧
    (alphaStepAgent M s).qf2P = s.qf2P ∧
    (alphaStepAgent M s).vfP = s.vfP ∧
    (alphaStepAgent M s).vfTargetP = s.vfTargetP ∧
    (alphaStepAgent M s).memory = s.memory ∧
    (updateModelB M cfg s batch).1.vLoss = listMean (batch.map (fun r =>
      (M.vEval s.vfP r.obs -
        (min (M.qEval s.qf1P r.obs (M.actorEval s.actorP r.obs).1)
             (M.qEval s.qf2P r.obs (M.actorEval s.actorP r.obs).1) -
         M.exp (M.alphaOpt s.logAlpha) *
           (M.actorEval s.actorP r.obs).2)) ^ 2)) ∧
    (updateModelB M cfg s batch).1.actorLoss =
      (if s.totalStep % cfg.policyUpdateFreq = 0 then
        listMean (batch.map (fun r =>
          M.exp (M.alphaOpt s.logAlpha) * (M.actorEval s.actorP r.obs).2 -
            (min (M.qEval s.qf1P r.obs (M.actorEval s.actorP r.obs).1)
                 (M.qEval s.qf2P r.obs (M.actorEval s.actorP r.obs).1) -
             M.vEval s.vfP r.obs)))
       else 0) ∧
    (∀ x : ℚ,
      (updateModelB M cfg { s with logAlpha := x } batch).1.qfLoss =
        (updateModelB M cfg s batch).1.qfLoss) := by
  refine ⟨alphaLossT_val M s batch, rfl, rfl, rfl, rfl, rfl, rfl, rfl, rfl,
    ?_, ?_, fun x => rfl⟩
  · rw [updateModelB_vLoss, vLossT_val]
    simp [alphaStepAgent]
  · rw [updateModelB_actorLoss]
    exact if_congr Iff.rfl (by rw [actorLossT_val]; simp [alphaStepAgent]) rfl

/-- C3: the actor gradient step (driven by
`actor_loss = mean(alpha * log_prob - (q_pred - stopgrad(V(state))))`,
with `q_pred` the elementwise minimum of the two Q-critics on the freshly
resampled action) and the immediately following target-V soft update
happen exactly when the step counter is a multiple of
`POLICY_UPDATE_FREQUENCE`; on every other call the returned actor loss is
the zero placeholder and the actor and target-V parameters are
unchanged. -/
theorem c3_policy_update_cadence (M : Model) (cfg : Config) (s : Agent)
    (batch : List Row) :
    ((updateModelB M cfg s batch).1.actorLoss =
      if cfg.policyUpdateFreq ∣ s.totalStep then
        listMean (batch.map (fun r =>
          M.exp (M.alphaOpt s.logAlpha) * (M.actorEval s.actorP r.obs).2 -
            (min (M.qEval s.qf1P r.obs (M.actorEval s.actorP r.obs).1)
                 (M.qEval s.qf2P r.obs (M.actorEval s.actorP r.obs).1) -
             M.vEval s.vfP r.obs)))
      else 0) ∧
    ((updateModelB M cfg s batch).2.actorP =
      if cfg.policyUpdateFreq ∣ s.totalStep then M.actorOpt s.actorP
      else s.actorP) ∧
    ((updateModelB M cfg s batch).2.vfTargetP =
      if cfg.policyUpdateFreq ∣ s.totalStep then
        softUpdate cfg.tau s.vfTargetP s.vfP
      else s.vfTargetP) := by
  have hiff : cfg.policyUpdateFreq ∣ s.totalStep ↔
      s.totalStep % cfg.policyUpdateFreq = 0 := by
    constructor
    · intro hd
      obtain ⟨c, hc⟩ := hd
      rw [hc]
      simp [Nat.mul_mod_right]
    · exact Nat.dvd_of_mod_eq_zero
  by_cases hd : cfg.policyUpdateFreq ∣ s.totalStep
  · refine ⟨?_, ?_, ?_⟩
    · rw [updateModelB_actorLoss, if_pos (hiff.1 hd), if_pos hd,
        actorLossT_val]
      simp [alphaStepAgent]
    · rw [updateModelB_actorP, if_pos (hiff.1 hd), if_pos hd]
    · rw [updateModelB_vfTargetP, if_pos (hiff.1 hd), if_pos hd]
  · have hm : ¬s.totalStep % cfg.policyUpdateFreq = 0 :=
      fun h => hd (hiff.2 h)
    refine ⟨?_, ?_, ?_⟩
    · rw [updateModelB_actorLoss, if_neg hm, if_neg hd]
    · rw [updateModelB_actorP, if_neg hm, if_neg hd]
    · rw [updateModelB_vfTargetP, if_neg hm, if_neg hd]

/-- C5: `train()` runs one update — sampling a minibatch from the replay
buffer through `sample_batch` — exactly when the buffer holds strictly
more than `BATCH_SIZE` transitions and the total step counter strictly
exceeds `INITIAL_RANDOM_STEPS`; otherwise it returns the agent state
entirely unchanged. -/
theorem c5_train_gating (M : Model) (cfg : Config) (s : Agent) :
    (train M cfg s =
      if cfg.batchSize < s.memory.size ∧ cfg.initialRandomSteps < s.totalStep
      then (update_model M cfg s).2 else s) ∧
    update_model M cfg s = updateModelB M cfg s (sampleBatch M s.memory) :=
  ⟨rfl, rfl⟩

/-- C4 counterexample: `step` wraps the action in a one-element list and
returns `tolist()` of the resulting `1 × action_dim` array, so the
returned object is a nested list of outer length 1, not a flat vector of
length `action_dim`: at `action_dim = 2` its length is 1 ≠ 2. -/
theorem c4_step_counterexample :
    ((step cModel cAgent [0]).1).length ≠ cAgent.actiondim := by decide

/-- C4 amended: for every state and agent state, `step` returns a
one-element list wrapping the elementwise-clipped actor action; when the
actor output has length `action_dim` (as the spec's Actor contract
promises), the inner vector has length `action_dim`, and every component
of it lies in `[-1, 1]`. -/
theorem c4_step_clipped_singleton (M : Model) (s : Agent) (st : Vec)
    (h : ((M.actorEval s.actorP st).1).length = s.actiondim) :
    (step M s st).1 = [((M.actorEval s.actorP st).1).map clip1] ∧
    (((M.actorEval s.actorP st).1).map clip1).length = s.actiondim ∧
    ∀ x ∈ ((M.actorEval s.actorP st).1).map clip1, -1 ≤ x ∧ x ≤ 1 := by
  refine ⟨rfl, by rw [List.length_map, h], ?_⟩
  intro x hx
  obtain ⟨y, _, rfl⟩ := List.mem_map.1 hx
  exact ⟨le_min (by norm_num) (le_max_left _ _), min_le_left _ _⟩

/-- Witness for the amended C4 at a concrete model, agent and state. -/
theorem c4_step_clipped_singleton_witness :
    ((cModel.actorEval cAgent.actorP [0]).1).length = cAgent.actiondim ∧
    (step cModel cAgent [0]).1 =
      [((cModel.actorEval cAgent.actorP [0]).1).map clip1] :=
  ⟨by decide, (c4_step_clipped_singleton cModel cAgent [0] (by decide)).1⟩

/-- C8 counterexample: outside test mode, `store_transition` does not
change only the replay buffer — it also overwrites the agent's
`transition` attribute — so the result differs from the agent with only
the buffer updated. -/
theorem c8_store_counterexample :
    store_transition cAgent [1] [2] 3 [4] true ≠
      { cAgent with
          memory := cAgent.memory.store ⟨[1], [4], 3, [2], true⟩ } := by
  decide

/-- C8 amended: `store_transition` is a no-op in test mode; otherwise it
stores exactly one transition with the given fields into the replay
buffer, records the same tuple in the agent's `transition` attribute, and
changes nothing else. -/
theorem c8_store_transition_effect (s : Agent) (st ns : Vec) (r : ℚ)
    (a : Vec) (d : Bool) :
    (s.isTest = true → store_transition s st ns r a d = s) ∧
    (s.isTest = false →
      (store_transition s st ns r a d).memory =
        s.memory.store ⟨st, a, r, ns, d⟩ ∧
      (store_transition s st ns r a d).transition =
        some ⟨st, a, r, ns, d⟩ ∧
      (store_transition s st ns r a d).statedim = s.statedim ∧
      (store_transition s st ns r a d).actiondim = s.actiondim ∧
      (store_transition s st ns r a d).targetAlpha = s.targetAlpha ∧
      (store_transition s st ns r a d).logAlpha = s.logAlpha ∧
      (store_transition s st ns r a d).actorP = s.actorP ∧
      (store_transition s st ns r a d).vfP = s.vfP ∧
      (store_transition s st ns r a d).vfTargetP = s.vfTargetP ∧
      (store_transition s st ns r a d).qf1P = s.qf1P ∧
      (store_transition s st ns r a d).qf2P = s.qf2P ∧
      (store_transition s st ns r a d).totalStep = s.totalStep ∧
      (store_transition s st ns r a d).isTest = s.isTest) := by
  constructor
  · intro h
    simp [store_transition, h]
  · intro h
    simp [store_transition, h]

/-- Witness for the amended C8: one agent in test mode (no-op) and one in
training mode (buffer and transition attribute updated). -/
theorem c8_store_transition_effect_witness :
    (cTestAgent.isTest = true ∧
      store_transition cTestAgent [1] [2] 3 [4] false = cTestAgent) ∧
    (cAgent.isTest = false ∧
      (store_transition cAgent [1] [2] 3 [4] true).transition =
        some ⟨[1], [4], 3, [2], true⟩) :=
  ⟨⟨by decide,
      (c8_store_transition_effect cTestAgent [1] [2] 3 [4] false).1
        (by decide)⟩,
   ⟨by decide,
      ((c8_store_transition_effect cAgent [1] [2] 3 [4] true).2
        (by decide)).2.1⟩⟩

end SACSpec
